import Mathlib

/-!
# shelly_exporter: the polling loop of `main.go`

A shallow embedding of `fetch`, the body of the polling loop of `run`, `run`
itself and `main`, followed by the properties of the polling-and-publishing
core.

Everything the program obtains from outside (the HTTP transport, the JSON
decoder, the file system, the metric registry's registration, the select
statement's winner) is a field of `Env`, so every property is proved for all
behaviours of the outside world.
-/

namespace ShellyExporter

/-! ## Data model -/

/-- A Go `float64`, kept as its 64-bit IEEE-754 pattern. The program never
computes with these values, it only moves them from the payload to the gauges. -/
abbrev float64 := Nat

/-- The command line options (`type opts struct`). -/
structure opts where
  configFile : String
deriving DecidableEq, Repr

/-- One polled device (`type configItem struct`). -/
structure configItem where
  Name : String
  Address : String
deriving DecidableEq, Repr

/-- Cumulative energy block of the payload (`type Aenergy struct`). -/
structure Aenergy where
  Total : float64
  ByMinute : List float64
  MinuteTs : Int
deriving DecidableEq, Repr

/-- Temperature block of the payload (`type Temperature struct`). -/
structure Temperature where
  Celsius : float64
  Fahrenheit : float64
deriving DecidableEq, Repr

/-- The decoded status payload (`type shellyResponse struct`). -/
structure shellyResponse where
  ID : Int
  Source : String
  Output : Bool
  Power : float64
  Voltage : float64
  Current : float64
  Aenergy : ShellyExporter.Aenergy
  Temperature : ShellyExporter.Temperature
deriving DecidableEq, Repr

/-- What `http.DefaultClient.Do` hands back on a transport-level success: the
two parts of `*http.Response` that `fetch` looks at. -/
structure httpResponse where
  StatusCode : Int
  Body : String
deriving DecidableEq, Repr

/-- The four errors `fetch` builds with `fmt.Errorf`, one constructor per format
string, carrying the values that are formatted into the message. -/
inductive FetchError where
  /-- Message "failed to create request for %s: %w". -/
  | createRequest (url : String) (cause : String)
  /-- Message "failed to fetch data from %s: %w". -/
  | fetchData (address : String) (cause : String)
  /-- Message "got unexpected status code %d from %s". -/
  | unexpectedStatus (code : Int) (address : String)
  /-- Message "failed to decode response from %s: %w". -/
  | decodeResponse (address : String) (cause : String)
deriving DecidableEq, Repr

/-- The errors `run` returns, one constructor per `return fmt.Errorf(...)`. -/
inductive RunError where
  /-- Message "failed to create logger: %w". -/
  | createLogger (cause : String)
  /-- Message "failed to read config file %s: %w". -/
  | readConfig (file : String) (cause : String)
  /-- Message "failed to unmarshal config: %w". -/
  | unmarshalConfig (cause : String)
  /-- Message "failed to register metric: %w". -/
  | registerMetric (cause : String)
deriving DecidableEq, Repr

/-- The records the polling loop writes with `log.Error` and `log.Info`. -/
inductive LogEntry where
  /-- Record "failed to fetch data" with the device name and the error. -/
  | fetchFailed (name : String) (err : FetchError)
  /-- Record "Successfully fetched data" with the device name and address. -/
  | fetched (name : String) (address : String)
deriving DecidableEq, Repr

/-- The outside world of one execution of the program. -/
structure Env where
  /-- Result of `cmd.Execute` parsing the command line into `opts`. -/
  parseFlags : Except String opts
  /-- Error of `zapcfg.Build()`, if any. -/
  buildLogger : Option String
  /-- The call `os.ReadFile` on a path. -/
  readFile : String → Except String String
  /-- The call `yaml.Unmarshal` into `[]configItem`. -/
  unmarshal : String → Except String (List configItem)
  /-- Error of `prometheus.Register` for the metric of the given name, if any. -/
  register : String → Option String
  /-- The call `http.NewRequestWithContext(ctx, GET, url, nil)`: its error, if any. -/
  newRequest : String → Option String
  /-- The call `http.DefaultClient.Do` made by the `n`-th call of `fetch`
  (counting from zero over the whole execution) for the given URL. Timeouts and
  cancellation show up here as transport errors. -/
  doRequest : Nat → String → Except String httpResponse
  /-- The call `json.NewDecoder(resp.Body).Decode(&shellyResp)` on a body. -/
  decode : String → Except String shellyResponse
  /-- Whether the context passed to `run` is cancelled before the timer of the
  `n`-th wait (counting from zero) fires. -/
  parentDone : Nat → Bool
  /-- The call `server.ListenAndServe()` made in the goroutine: `none` when it
  serves for ever, `some (n, err)` when it returns `err` and the `cancel()` that
  follows takes effect before the timer of the `n`-th wait fires. -/
  listenAndServe : Option (Nat × String)

/-! ## fetch -/

/-- The function `fetch` of `main.go`; `n` is the number of earlier calls. -/
def fetch (env : Env) (n : Nat) (address : String) : Except FetchError shellyResponse :=
  let url := address ++ "/rpc/Switch.GetStatus?id=0"
  match env.newRequest url with
  | some err => .error (.createRequest url err)
  | none =>
    match env.doRequest n url with
    | .error err => .error (.fetchData address err)
    | .ok resp =>
      if resp.StatusCode ≠ 200 then
        .error (.unexpectedStatus resp.StatusCode address)
      else
        match env.decode resp.Body with
        | .error err => .error (.decodeResponse address err)
        | .ok shellyResp => .ok shellyResp

/-! ## The gauges -/

/-- A `*prometheus.GaugeVec` with the single label `name`: the gauge stored
under each label value, if one was created. -/
abbrev GaugeVec := String → Option float64

/-- The method `WithLabelValues(name)`: the gauge under `name` is created with
value zero unless it exists already. -/
def GaugeVec.WithLabelValues (v : GaugeVec) (name : String) : GaugeVec :=
  fun n => if n = name then some ((v n).getD 0) else v n

/-- The method `Set(x)` on the gauge that `WithLabelValues(name)` returned. -/
def GaugeVec.Set (v : GaugeVec) (name : String) (x : float64) : GaugeVec :=
  fun n => if n = name then (v n).map (fun _ => x) else v n

/-- The state of the process: the four gauge vectors of `run`, and what the
polling loop did so far. -/
structure State where
  powerMetric : GaugeVec
  voltageMetric : GaugeVec
  currentMetric : GaugeVec
  temperatureMetric : GaugeVec
  /-- The addresses passed to `fetch` so far, oldest first. -/
  fetched : List String
  /-- The records logged by the polling loop so far, oldest first. -/
  log : List LogEntry
  /-- The number of completed passes over the configuration. -/
  cycles : Nat

/-- The state when the polling loop is entered: four empty gauge vectors. -/
def State.init : State :=
  { powerMetric := fun _ => none
    voltageMetric := fun _ => none
    currentMetric := fun _ => none
    temperatureMetric := fun _ => none
    fetched := []
    log := []
    cycles := 0 }

/-- The eight gauge operations of lines 127 to 130, in program order: for each
of power, voltage, current and temperature, `WithLabelValues` then `Set`. -/
def writeSteps (name : String) (resp : shellyResponse) : List (State → State) :=
  [ fun st => { st with powerMetric := st.powerMetric.WithLabelValues name },
    fun st => { st with powerMetric := st.powerMetric.Set name resp.Power },
    fun st => { st with voltageMetric := st.voltageMetric.WithLabelValues name },
    fun st => { st with voltageMetric := st.voltageMetric.Set name resp.Voltage },
    fun st => { st with currentMetric := st.currentMetric.WithLabelValues name },
    fun st => { st with currentMetric := st.currentMetric.Set name resp.Current },
    fun st => { st with temperatureMetric := st.temperatureMetric.WithLabelValues name },
    fun st => { st with temperatureMetric :=
                  st.temperatureMetric.Set name resp.Temperature.Celsius } ]

/-- Runs a list of operations on the state, first to last. -/
def applySteps (steps : List (State → State)) (st : State) : State :=
  steps.foldl (fun s f => f s) st

/-- The body of `for _, item := range config` for one item. -/
def pollItem (env : Env) (st : State) (item : configItem) : State :=
  match fetch env st.fetched.length item.Address with
  | .error err =>
    { st with
      fetched := st.fetched ++ [item.Address]
      log := st.log ++ [.fetchFailed item.Name err] }
  | .ok resp =>
    applySteps (writeSteps item.Name resp)
      { st with
        fetched := st.fetched ++ [item.Address]
        log := st.log ++ [.fetched item.Name item.Address] }

/-- One poll cycle: the whole `for _, item := range config` statement. -/
def pollCycle (env : Env) (config : List configItem) (st : State) : State :=
  { config.foldl (pollItem env) st with cycles := st.cycles + 1 }

/-- The state after `m` consecutive poll cycles. -/
def runCycles (env : Env) (config : List configItem) : Nat → State → State
  | 0, st => st
  | m + 1, st => runCycles env config m (pollCycle env config st)

/-- Whether `<-ctx.Done()` wins the `n`-th `select`: the context of `run` is
cancelled by its parent or by the server goroutine's `cancel()`. -/
def ctxDone (env : Env) (n : Nat) : Bool :=
  env.parentDone n ||
    match env.listenAndServe with
    | some (t, _) => decide (t ≤ n)
    | none => false

/-- The statement `for { ... }` of `run`: a poll cycle, then the `select`. The
result is the state in which `return nil` is executed, or `none` when the loop
is still running after `fuel` iterations. -/
def loop (env : Env) (config : List configItem) : Nat → State → Option State
  | 0, _ => none
  | fuel + 1, st =>
    let st1 := pollCycle env config st
    if ctxDone env st.cycles then some st1 else loop env config fuel st1

/-- The names under which `run` registers its four gauge vectors, in order. -/
def metricNames : List String :=
  ["shelly_power_watts", "shelly_voltage_volts", "shelly_current_amperes",
   "shelly_temperature_celsius"]

/-- The function `run`: `none` when it is still running after `fuel` iterations
of the polling loop, `some (.error e)` when it returns the error `e`, and
`some (.ok st)` when it returns `nil`, `st` being the final state. -/
def run (env : Env) (o : opts) (fuel : Nat) : Option (Except RunError State) :=
  match env.buildLogger with
  | some err => some (.error (.createLogger err))
  | none =>
    match env.readFile o.configFile with
    | .error err => some (.error (.readConfig o.configFile err))
    | .ok cfg =>
      match env.unmarshal cfg with
      | .error err => some (.error (.unmarshalConfig err))
      | .ok config =>
        match metricNames.findSome? env.register with
        | some err => some (.error (.registerMetric err))
        | none => (loop env config fuel State.init).map .ok

/-- The function `main`: the exit status of the process, `none` when `run` is
still running after `fuel` iterations of the polling loop. -/
def main (env : Env) (fuel : Nat) : Option Nat :=
  match env.parseFlags with
  | .error _ => some 1
  | .ok o =>
    match run env o fuel with
    | none => none
    | some (.error _) => some 1
    | some (.ok _) => some 0

/-! ## What a scrape reads -/

/-- The four values read for one name. -/
structure Sample where
  power : Option float64
  voltage : Option float64
  current : Option float64
  temperature : Option float64
deriving DecidableEq, Repr

/-- The sample a successful fetch publishes. -/
def sampleOf (resp : shellyResponse) : Sample :=
  { power := some resp.Power
    voltage := some resp.Voltage
    current := some resp.Current
    temperature := some resp.Temperature.Celsius }

/-- The four gauges stored under `name` in a state. -/
def scrape (st : State) (name : String) : Sample :=
  { power := st.powerMetric name
    voltage := st.voltageMetric name
    current := st.currentMetric name
    temperature := st.temperatureMetric name }

/-- A scrape that runs while the polling loop executes `writeSteps name resp`
from state `st`: the gauge of each metric is read at a moment of its own, after
`jp`, `jv`, `jc` and `jt` of the eight operations respectively. -/
def scrapeDuring (st : State) (name : String) (resp : shellyResponse)
    (jp jv jc jt : Nat) (n : String) : Sample :=
  { power := (applySteps ((writeSteps name resp).take jp) st).powerMetric n
    voltage := (applySteps ((writeSteps name resp).take jv) st).voltageMetric n
    current := (applySteps ((writeSteps name resp).take jc) st).currentMetric n
    temperature := (applySteps ((writeSteps name resp).take jt) st).temperatureMetric n }

/-- All four gauges hold a value. -/
def Sample.isSet (s : Sample) : Bool :=
  s.power.isSome && s.voltage.isSome && s.current.isSome && s.temperature.isSome

/-- No gauge holds a value. -/
def Sample.unset : Sample :=
  { power := none, voltage := none, current := none, temperature := none }

/-- A device named `n` succeeds in one of the first `m` cycles started from `st`. -/
def succeededWithin (env : Env) (config : List configItem) (st : State) (m : Nat)
    (n : String) : Prop :=
  ∃ c i item resp, c < m ∧ config[i]? = some item ∧ item.Name = n ∧
    fetch env (st.fetched.length + c * config.length + i) item.Address = .ok resp

/-- The part of `run` before the polling loop succeeds and yields `config`. -/
def startsWith (env : Env) (o : opts) (config : List configItem) : Prop :=
  env.buildLogger = none ∧
    (∃ cfg, env.readFile o.configFile = .ok cfg ∧ env.unmarshal cfg = .ok config) ∧
    metricNames.findSome? env.register = none

/-! ## A worked execution

The fetches of the execution are answered in turn by a timeout, a first valid
payload and a second valid payload, except that the fourth one is answered 500. -/

namespace Demo

/-- The first payload. -/
def sample1 : shellyResponse :=
  { ID := 0, Source := "init", Output := true, Power := 125, Voltage := 2301, Current := 54,
    Aenergy := { Total := 7, ByMinute := [1, 2, 3], MinuteTs := 1700000000 },
    Temperature := { Celsius := 320, Fahrenheit := 896 } }

/-- The second payload. -/
def sample2 : shellyResponse :=
  { ID := 0, Source := "button", Output := false, Power := 0, Voltage := 2298, Current := 2,
    Aenergy := { Total := 9, ByMinute := [0, 0, 0], MinuteTs := 1700000060 },
    Temperature := { Celsius := 301, Fahrenheit := 862 } }

/-- The configuration of scenario 2. -/
def config : List configItem :=
  [{ Name := "dev1", Address := "http://h1" }, { Name := "dev2", Address := "http://h2" }]

/-- Four entries with the same name. -/
def twins : List configItem :=
  [{ Name := "plug", Address := "http://h1" }, { Name := "plug", Address := "http://h2" },
   { Name := "plug", Address := "http://h3" }, { Name := "plug", Address := "http://h4" }]

/-- The options the flags parse to. -/
def o : opts := { configFile := "config.yaml" }

/-- The outside world: the server goroutine's `cancel()` lands during wait `t`. -/
def env (cfg : List configItem) (t : Nat) : Env :=
  { parseFlags := .ok o
    buildLogger := none
    readFile := fun _ => .ok "yaml"
    unmarshal := fun _ => .ok cfg
    register := fun _ => none
    newRequest := fun _ => none
    doRequest := fun n _ =>
      if n = 3 then .ok { StatusCode := 500, Body := "" }
      else if n % 3 = 0 then .error "context deadline exceeded"
      else if n % 3 = 1 then .ok { StatusCode := 200, Body := "payload1" }
      else .ok { StatusCode := 200, Body := "payload2" }
    decode := fun body =>
      if body = "payload1" then .ok sample1
      else if body = "payload2" then .ok sample2
      else .error "EOF"
    parentDone := fun _ => false
    listenAndServe := some (t, "listen tcp :9090: bind: address already in use") }

/-- The same world, except that every request is answered 204 with a valid body. -/
def noContent : Env :=
  { env config 0 with
    doRequest := fun _ _ => .ok { StatusCode := 204, Body := "payload1" } }

/-- A state in which `dev1` has the value 1 in all four gauges. -/
def before : State :=
  { State.init with
    powerMetric := fun n => if n = "dev1" then some 1 else none
    voltageMetric := fun n => if n = "dev1" then some 1 else none
    currentMetric := fun n => if n = "dev1" then some 1 else none
    temperatureMetric := fun n => if n = "dev1" then some 1 else none }

end Demo

/-! ## The effect of one loop body -/

theorem scrape_applySteps_writeSteps (st : State) (name : String) (resp : shellyResponse)
    (n : String) :
    scrape (applySteps (writeSteps name resp) st) n
      = if n = name then sampleOf resp else scrape st n := by
  by_cases h : n = name <;>
    simp [applySteps, writeSteps, scrape, sampleOf, GaugeVec.Set, GaugeVec.WithLabelValues, h]

theorem applySteps_writeSteps_fetched (st : State) (name : String) (resp : shellyResponse) :
    (applySteps (writeSteps name resp) st).fetched = st.fetched := by
  simp [applySteps, writeSteps]

theorem applySteps_writeSteps_cycles (st : State) (name : String) (resp : shellyResponse) :
    (applySteps (writeSteps name resp) st).cycles = st.cycles := by
  simp [applySteps, writeSteps]

theorem pollItem_fetched (env : Env) (st : State) (item : configItem) :
    (pollItem env st item).fetched = st.fetched ++ [item.Address] := by
  unfold pollItem
  split
  · rfl
  · rw [applySteps_writeSteps_fetched]

theorem pollItem_cycles (env : Env) (st : State) (item : configItem) :
    (pollItem env st item).cycles = st.cycles := by
  unfold pollItem
  split
  · rfl
  · rw [applySteps_writeSteps_cycles]

theorem scrape_pollItem_ok (env : Env) (st : State) (item : configItem)
    (resp : shellyResponse) (h : fetch env st.fetched.length item.Address = .ok resp)
    (n : String) :
    scrape (pollItem env st item) n
      = if n = item.Name then sampleOf resp else scrape st n := by
  unfold pollItem
  rw [h]
  simp only
  rw [scrape_applySteps_writeSteps]
  rfl

theorem scrape_pollItem_error (env : Env) (st : State) (item : configItem)
    (err : FetchError) (h : fetch env st.fetched.length item.Address = .error err)
    (n : String) :
    scrape (pollItem env st item) n = scrape st n := by
  unfold pollItem
  rw [h]
  rfl

theorem scrape_pollItem_of_ne (env : Env) (st : State) (item : configItem) (n : String)
    (h : item.Name ≠ n) :
    scrape (pollItem env st item) n = scrape st n := by
  cases hf : fetch env st.fetched.length item.Address with
  | error err => exact scrape_pollItem_error env st item err hf n
  | ok resp =>
    rw [scrape_pollItem_ok env st item resp hf n, if_neg (fun e => h e.symm)]

/-! ## The effect of one pass over the configuration -/

theorem foldl_pollItem_fetched (env : Env) (l : List configItem) (st : State) :
    (l.foldl (pollItem env) st).fetched = st.fetched ++ l.map configItem.Address := by
  induction l generalizing st with
  | nil => simp
  | cons a l ih => simp [ih, pollItem_fetched]

theorem foldl_pollItem_cycles (env : Env) (l : List configItem) (st : State) :
    (l.foldl (pollItem env) st).cycles = st.cycles := by
  induction l generalizing st with
  | nil => rfl
  | cons a l ih => simp [ih, pollItem_cycles]

/-- Frame: when every device named `n` fails, the gauges under `n` stay as they are. -/
theorem scrape_foldl_pollItem_of_failed (env : Env) (n : String) (l : List configItem)
    (st : State)
    (h : ∀ j item, l[j]? = some item → item.Name = n →
      ∃ err, fetch env (st.fetched.length + j) item.Address = .error err) :
    scrape (l.foldl (pollItem env) st) n = scrape st n := by
  induction l generalizing st with
  | nil => rfl
  | cons a l ih =>
    rw [List.foldl_cons, ih]
    · by_cases ha : a.Name = n
      · obtain ⟨err, herr⟩ := h 0 a (by simp) ha
        exact scrape_pollItem_error env st a err (by simpa using herr) n
      · exact scrape_pollItem_of_ne env st a n ha
    · intro j item hj hn
      have := h (j + 1) item (by simpa using hj) hn
      rw [pollItem_fetched]
      simpa [Nat.add_assoc, Nat.add_comm 1 j] using this

/-- The last successful device named `n` decides the gauges under `n`. -/
theorem scrape_foldl_pollItem_last (env : Env) (n : String) (pre post : List configItem)
    (item : configItem) (st : State) (resp : shellyResponse) (hname : item.Name = n)
    (hok : fetch env (st.fetched.length + pre.length) item.Address = .ok resp)
    (hpost : ∀ j it, post[j]? = some it → it.Name = n →
      ∃ err, fetch env (st.fetched.length + pre.length + 1 + j) it.Address = .error err) :
    scrape ((pre ++ item :: post).foldl (pollItem env) st) n = sampleOf resp := by
  rw [List.foldl_append, List.foldl_cons]
  have hlen : (pre.foldl (pollItem env) st).fetched.length = st.fetched.length + pre.length := by
    rw [foldl_pollItem_fetched]; simp
  rw [scrape_foldl_pollItem_of_failed]
  · rw [scrape_pollItem_ok env _ item resp (by rw [hlen]; exact hok) n, if_pos hname.symm]
  · intro j it hj hn
    rw [pollItem_fetched, List.length_append, hlen]
    simpa using hpost j it hj hn

/-- The same in terms of positions in the configuration. -/
theorem scrape_foldl_pollItem_last_index (env : Env) (config : List configItem) (st : State)
    (i : Nat) (hi : i < config.length) (resp : shellyResponse)
    (hok : fetch env (st.fetched.length + i) config[i].Address = .ok resp)
    (hlater : ∀ j (hj : j < config.length), i < j → config[j].Name = config[i].Name →
      ∃ err, fetch env (st.fetched.length + j) config[j].Address = .error err) :
    scrape (config.foldl (pollItem env) st) config[i].Name = sampleOf resp := by
  have hsplit : config = config.take i ++ config[i] :: config.drop (i + 1) := by
    rw [← List.drop_eq_getElem_cons hi, List.take_append_drop]
  have hlen : (config.take i).length = i := by
    rw [List.length_take]; omega
  have key := scrape_foldl_pollItem_last env config[i].Name (config.take i)
    (config.drop (i + 1)) config[i] st resp rfl (by rw [hlen]; exact hok) (by
      intro j it hj hn
      rw [List.getElem?_drop] at hj
      obtain ⟨hlt, hget⟩ := List.getElem?_eq_some.mp hj
      subst hget
      have := hlater (i + 1 + j) hlt (by omega) hn
      rw [hlen]
      simpa [Nat.add_assoc] using this)
  rw [← hsplit] at key
  exact key

theorem nodup_names_index (config : List configItem)
    (hnd : (config.map configItem.Name).Nodup) (i j : Nat) (hi : i < config.length)
    (hj : j < config.length) (h : config[j].Name = config[i].Name) : j = i := by
  have hi2 : i < (config.map configItem.Name).length := by simpa using hi
  have hj2 : j < (config.map configItem.Name).length := by simpa using hj
  have heq : (config.map configItem.Name)[j] = (config.map configItem.Name)[i] := by
    simpa using h
  exact (List.Nodup.getElem_inj_iff hnd).mp heq

theorem scrape_pollCycle (env : Env) (config : List configItem) (st : State) (n : String) :
    scrape (pollCycle env config st) n = scrape (config.foldl (pollItem env) st) n := rfl

/-! ## Entries are created and never removed -/

theorem isSet_sampleOf (resp : shellyResponse) : (sampleOf resp).isSet = true := rfl

theorem isSet_pollItem (env : Env) (st : State) (item : configItem) (n : String)
    (h : (scrape st n).isSet = true) : (scrape (pollItem env st item) n).isSet = true := by
  cases hf : fetch env st.fetched.length item.Address with
  | error err => rw [scrape_pollItem_error env st item err hf n]; exact h
  | ok resp =>
    rw [scrape_pollItem_ok env st item resp hf n]
    split
    · rfl
    · exact h

theorem isSet_foldl_pollItem (env : Env) (l : List configItem) (st : State) (n : String)
    (h : (scrape st n).isSet = true) :
    (scrape (l.foldl (pollItem env) st) n).isSet = true := by
  induction l generalizing st with
  | nil => exact h
  | cons a l ih => exact ih _ (isSet_pollItem env st a n h)

/-- A success of a device named `n` during the pass leaves all four gauges set. -/
theorem isSet_foldl_pollItem_of_ok (env : Env) (l : List configItem) (st : State)
    (n : String)
    (h : ∃ j item resp, l[j]? = some item ∧ item.Name = n ∧
      fetch env (st.fetched.length + j) item.Address = .ok resp) :
    (scrape (l.foldl (pollItem env) st) n).isSet = true := by
  induction l generalizing st with
  | nil => obtain ⟨j, item, resp, hj, _⟩ := h; simp at hj
  | cons a l ih =>
    obtain ⟨j, item, resp, hj, hn, hok⟩ := h
    rw [List.foldl_cons]
    cases j with
    | zero =>
      have ha : a = item := by simpa using hj
      subst ha
      apply isSet_foldl_pollItem
      rw [scrape_pollItem_ok env st a resp (by simpa using hok) n, if_pos hn.symm]
      rfl
    | succ j =>
      apply ih
      refine ⟨j, item, resp, by simpa using hj, hn, ?_⟩
      rw [pollItem_fetched]
      simpa [Nat.add_assoc, Nat.add_comm 1 j] using hok

/-! ## Several cycles -/

theorem pollCycle_fetched (env : Env) (config : List configItem) (st : State) :
    (pollCycle env config st).fetched = st.fetched ++ config.map configItem.Address :=
  foldl_pollItem_fetched env config st

theorem pollCycle_cycles (env : Env) (config : List configItem) (st : State) :
    (pollCycle env config st).cycles = st.cycles + 1 := rfl

theorem runCycles_succ (env : Env) (config : List configItem) (m : Nat) (st : State) :
    runCycles env config (m + 1) st = pollCycle env config (runCycles env config m st) := by
  induction m generalizing st with
  | zero => rfl
  | succ m ih =>
    show runCycles env config (m + 1) (pollCycle env config st) = _
    rw [ih]
    rfl

theorem runCycles_cycles (env : Env) (config : List configItem) (m : Nat) (st : State) :
    (runCycles env config m st).cycles = st.cycles + m := by
  induction m with
  | zero => rfl
  | succ m ih => rw [runCycles_succ, pollCycle_cycles, ih]; omega

theorem runCycles_fetched_length (env : Env) (config : List configItem) (m : Nat)
    (st : State) :
    (runCycles env config m st).fetched.length = st.fetched.length + m * config.length := by
  induction m with
  | zero => simp [runCycles]
  | succ m ih =>
    rw [runCycles_succ, pollCycle_fetched, List.length_append, ih, List.length_map,
      Nat.succ_mul]
    omega

theorem scrape_runCycles_of_not_succeeded (env : Env) (config : List configItem)
    (m : Nat) (st : State) (n : String) (h : ¬ succeededWithin env config st m n) :
    scrape (runCycles env config m st) n = scrape st n := by
  induction m with
  | zero => rfl
  | succ m ih =>
    rw [runCycles_succ, scrape_pollCycle, scrape_foldl_pollItem_of_failed]
    · apply ih
      rintro ⟨c, i, item, resp, hc, hrest⟩
      exact h ⟨c, i, item, resp, by omega, hrest⟩
    · intro j item hj hn
      rw [runCycles_fetched_length]
      cases hf : fetch env (st.fetched.length + m * config.length + j) item.Address with
      | error err => exact ⟨err, rfl⟩
      | ok resp => exact absurd ⟨m, j, item, resp, by omega, hj, hn, hf⟩ h

theorem isSet_runCycles (env : Env) (config : List configItem) (m : Nat) (st : State)
    (n : String) (h : (scrape st n).isSet = true) :
    (scrape (runCycles env config m st) n).isSet = true := by
  induction m with
  | zero => exact h
  | succ m ih =>
    rw [runCycles_succ, scrape_pollCycle]
    exact isSet_foldl_pollItem env config _ n ih

theorem isSet_runCycles_of_succeeded (env : Env) (config : List configItem)
    (m : Nat) (st : State) (n : String) (h : succeededWithin env config st m n) :
    (scrape (runCycles env config m st) n).isSet = true := by
  induction m with
  | zero => obtain ⟨c, _, _, _, hc, _⟩ := h; omega
  | succ m ih =>
    obtain ⟨c, i, item, resp, hc, hi, hn, hok⟩ := h
    rw [runCycles_succ, scrape_pollCycle]
    by_cases hcm : c < m
    · exact isSet_foldl_pollItem env config _ n (ih ⟨c, i, item, resp, hcm, hi, hn, hok⟩)
    · have hceq : c = m := by omega
      subst hceq
      apply isSet_foldl_pollItem_of_ok
      exact ⟨i, item, resp, hi, hn, by rw [runCycles_fetched_length]; exact hok⟩

/-! ## The polling loop and `run` -/

theorem run_of_startsWith (env : Env) (o : opts) (config : List configItem)
    (h : startsWith env o config) (fuel : Nat) :
    run env o fuel = (loop env config fuel State.init).map .ok := by
  obtain ⟨hlog, ⟨cfg, hread, hun⟩, hreg⟩ := h
  simp only [run, hlog, hread, hun, hreg]

/-- The loop returns after `k + 1` cycles once the stop signal wins wait `k`. -/
theorem loop_of_first_done (env : Env) (config : List configItem) (k : Nat) :
    ∀ (fuel : Nat) (st : State), k < fuel →
      (∀ j, j < k → ctxDone env (st.cycles + j) = false) →
      ctxDone env (st.cycles + k) = true →
      loop env config fuel st = some (runCycles env config (k + 1) st) := by
  induction k with
  | zero =>
    intro fuel st hfuel _ hdone
    obtain ⟨f, rfl⟩ : ∃ f, fuel = f + 1 := ⟨fuel - 1, by omega⟩
    simp only [loop]
    rw [if_pos (by simpa using hdone)]
    rfl
  | succ k ih =>
    intro fuel st hfuel htimer hdone
    obtain ⟨f, rfl⟩ : ∃ f, fuel = f + 1 := ⟨fuel - 1, by omega⟩
    simp only [loop]
    have h0 : ctxDone env st.cycles = false := by simpa using htimer 0 (by omega)
    rw [if_neg (by simp [h0])]
    rw [ih f (pollCycle env config st) (by omega)]
    · rfl
    · intro j hj
      rw [pollCycle_cycles]
      have := htimer (j + 1) (by omega)
      simpa [Nat.add_assoc, Nat.add_comm 1 j] using this
    · rw [pollCycle_cycles]
      simpa [Nat.add_assoc, Nat.add_comm 1 k] using hdone

/-- The loop is still running while only the timer has won. -/
theorem loop_of_not_done (env : Env) (config : List configItem) :
    ∀ (fuel : Nat) (st : State),
      (∀ j, j < fuel → ctxDone env (st.cycles + j) = false) →
      loop env config fuel st = none := by
  intro fuel
  induction fuel with
  | zero => intro st _; rfl
  | succ f ih =>
    intro st htimer
    simp only [loop]
    have h0 : ctxDone env st.cycles = false := by simpa using htimer 0 (by omega)
    rw [if_neg (by simp [h0])]
    apply ih
    intro j hj
    rw [pollCycle_cycles]
    have := htimer (j + 1) (by omega)
    simpa [Nat.add_assoc, Nat.add_comm 1 j] using this

/-- Whenever the loop returns, it does so after a cycle whose wait the stop
signal won, every earlier wait having been won by the timer. -/
theorem loop_some (env : Env) (config : List configItem) :
    ∀ (fuel : Nat) (st res : State), loop env config fuel st = some res →
      ∃ k, k < fuel ∧ res = runCycles env config (k + 1) st ∧
        ctxDone env (st.cycles + k) = true ∧
        ∀ j, j < k → ctxDone env (st.cycles + j) = false := by
  intro fuel
  induction fuel with
  | zero => intro st res h; simp [loop] at h
  | succ f ih =>
    intro st res h
    simp only [loop] at h
    by_cases hd : ctxDone env st.cycles = true
    · rw [if_pos hd] at h
      refine ⟨0, by omega, ?_, by simpa using hd, by intro j hj; omega⟩
      have := Option.some.inj h
      rw [← this]
      rfl
    · rw [if_neg hd] at h
      obtain ⟨k, hk, hres, hdone, htimer⟩ := ih _ _ h
      rw [pollCycle_cycles] at hdone htimer
      refine ⟨k + 1, by omega, ?_, ?_, ?_⟩
      · rw [hres]; rfl
      · simpa [Nat.add_assoc, Nat.add_comm 1 k] using hdone
      · intro j hj
        cases j with
        | zero => simpa using hd
        | succ j =>
          have := htimer j (by omega)
          simpa [Nat.add_assoc, Nat.add_comm 1 j] using this

/-- The loop returns as soon as the fuel reaches past a wait won by the stop signal. -/
theorem loop_returns (env : Env) (config : List configItem) :
    ∀ (fuel : Nat) (st : State) (t : Nat), t < fuel → ctxDone env (st.cycles + t) = true →
      ∃ res, loop env config fuel st = some res ∧ st.cycles + 1 ≤ res.cycles ∧
        res.cycles ≤ st.cycles + t + 1 := by
  intro fuel
  induction fuel with
  | zero => intro st t ht; omega
  | succ f ih =>
    intro st t ht hdone
    simp only [loop]
    by_cases hd : ctxDone env st.cycles = true
    · rw [if_pos hd]
      exact ⟨_, rfl, by rw [pollCycle_cycles], by rw [pollCycle_cycles]; omega⟩
    · rw [if_neg hd]
      cases t with
      | zero => exact absurd (by simpa using hdone) hd
      | succ t =>
        obtain ⟨res, hres, hlo, hhi⟩ := ih (pollCycle env config st) t (by omega) (by
          rw [pollCycle_cycles]
          simpa [Nat.add_assoc, Nat.add_comm 1 t] using hdone)
        rw [pollCycle_cycles] at hlo hhi
        exact ⟨res, hres, by omega, by omega⟩

theorem run_ne_error (env : Env) (o : opts) (config : List configItem)
    (h : startsWith env o config) (fuel : Nat) (e : RunError) :
    run env o fuel ≠ some (.error e) := by
  rw [run_of_startsWith env o config h]
  cases loop env config fuel State.init <;> simp

theorem Demo.startsWith_env (cfg : List configItem) (t : Nat) :
    startsWith (Demo.env cfg t) Demo.o cfg :=
  ⟨rfl, ⟨"yaml", rfl, rfl⟩, rfl⟩

/-! ## The properties of the poll cycle -/

/-- C1: with pairwise distinct names, after one poll cycle every device whose
fetch succeeded has the four gauges stored under its name equal to the decoded
payload's apower, voltage, current and temperature.tC, whatever the fetches of
the other devices did. -/
theorem pollCycle_publishes_success (env : Env) (config : List configItem) (st : State)
    (hnd : (config.map configItem.Name).Nodup) (i : Nat) (hi : i < config.length)
    (resp : shellyResponse)
    (hok : fetch env (st.fetched.length + i) config[i].Address = .ok resp) :
    (pollCycle env config st).powerMetric config[i].Name = some resp.Power ∧
    (pollCycle env config st).voltageMetric config[i].Name = some resp.Voltage ∧
    (pollCycle env config st).currentMetric config[i].Name = some resp.Current ∧
    (pollCycle env config st).temperatureMetric config[i].Name
      = some resp.Temperature.Celsius := by
  have key : scrape (pollCycle env config st) config[i].Name = sampleOf resp := by
    rw [scrape_pollCycle]
    apply scrape_foldl_pollItem_last_index env config st i hi resp hok
    intro j hj hij hname
    have := nodup_names_index config hnd i j hi hj hname
    omega
  exact ⟨congrArg Sample.power key, congrArg Sample.voltage key,
    congrArg Sample.current key, congrArg Sample.temperature key⟩

/-- Scenario 2 of the specification: the first device times out, the second one
is published all the same. -/
theorem pollCycle_publishes_success_witness :
    (pollCycle (Demo.env Demo.config 0) Demo.config State.init).powerMetric "dev2" = some 125 ∧
    (pollCycle (Demo.env Demo.config 0) Demo.config State.init).voltageMetric "dev2"
      = some 2301 ∧
    (pollCycle (Demo.env Demo.config 0) Demo.config State.init).currentMetric "dev2" = some 54 ∧
    (pollCycle (Demo.env Demo.config 0) Demo.config State.init).temperatureMetric "dev2"
      = some 320 :=
  pollCycle_publishes_success (Demo.env Demo.config 0) Demo.config State.init (by decide) 1
    (by decide) Demo.sample1 rfl

/-- C2: with pairwise distinct names, after one poll cycle every device whose
fetch failed has exactly the gauge values it had before the cycle, all four
unchanged, or still unset if it had none. -/
theorem pollCycle_failure_keeps_gauges (env : Env) (config : List configItem) (st : State)
    (hnd : (config.map configItem.Name).Nodup) (i : Nat) (hi : i < config.length)
    (err : FetchError)
    (hfail : fetch env (st.fetched.length + i) config[i].Address = .error err) :
    (pollCycle env config st).powerMetric config[i].Name = st.powerMetric config[i].Name ∧
    (pollCycle env config st).voltageMetric config[i].Name
      = st.voltageMetric config[i].Name ∧
    (pollCycle env config st).currentMetric config[i].Name
      = st.currentMetric config[i].Name ∧
    (pollCycle env config st).temperatureMetric config[i].Name
      = st.temperatureMetric config[i].Name := by
  have key : scrape (pollCycle env config st) config[i].Name = scrape st config[i].Name := by
    rw [scrape_pollCycle]
    apply scrape_foldl_pollItem_of_failed
    intro j item hj hname
    obtain ⟨hlt, hget⟩ := List.getElem?_eq_some.mp hj
    subst hget
    have hji := nodup_names_index config hnd i j hi hlt hname
    subst hji
    exact ⟨err, hfail⟩
  exact ⟨congrArg Sample.power key, congrArg Sample.voltage key,
    congrArg Sample.current key, congrArg Sample.temperature key⟩

/-- The first device keeps the value 1 in all four gauges when its fetch times out. -/
theorem pollCycle_failure_keeps_gauges_witness :
    (pollCycle (Demo.env Demo.config 0) Demo.config Demo.before).powerMetric "dev1" = some 1 ∧
    (pollCycle (Demo.env Demo.config 0) Demo.config Demo.before).voltageMetric "dev1"
      = some 1 ∧
    (pollCycle (Demo.env Demo.config 0) Demo.config Demo.before).currentMetric "dev1"
      = some 1 ∧
    (pollCycle (Demo.env Demo.config 0) Demo.config Demo.before).temperatureMetric "dev1"
      = some 1 :=
  pollCycle_failure_keeps_gauges (Demo.env Demo.config 0) Demo.config Demo.before (by decide) 0
    (by decide) (.fetchData "http://h1" "context deadline exceeded") rfl

/-- C7: for every configuration, duplicates included, after one poll cycle the
values stored under a name are those of the last device, in configuration order,
that has this name and whose fetch succeeded; and `run` returns no error for
such a configuration. -/
theorem pollCycle_last_success_wins (env : Env) (config : List configItem) (st : State)
    (i : Nat) (hi : i < config.length) (resp : shellyResponse)
    (hok : fetch env (st.fetched.length + i) config[i].Address = .ok resp)
    (hlater : ∀ j (hj : j < config.length), i < j → config[j].Name = config[i].Name →
      ∃ err, fetch env (st.fetched.length + j) config[j].Address = .error err) :
    ((pollCycle env config st).powerMetric config[i].Name = some resp.Power ∧
     (pollCycle env config st).voltageMetric config[i].Name = some resp.Voltage ∧
     (pollCycle env config st).currentMetric config[i].Name = some resp.Current ∧
     (pollCycle env config st).temperatureMetric config[i].Name
       = some resp.Temperature.Celsius) ∧
    ∀ o, startsWith env o config → ∀ fuel e, run env o fuel ≠ some (.error e) := by
  have key : scrape (pollCycle env config st) config[i].Name = sampleOf resp := by
    rw [scrape_pollCycle]
    exact scrape_foldl_pollItem_last_index env config st i hi resp hok hlater
  exact ⟨⟨congrArg Sample.power key, congrArg Sample.voltage key,
    congrArg Sample.current key, congrArg Sample.temperature key⟩,
    fun o h fuel e => run_ne_error env o config h fuel e⟩

/-- Four devices named "plug": a timeout, two successes and a 500; the second
success is the one published. -/
theorem pollCycle_last_success_wins_witness :
    ((pollCycle (Demo.env Demo.twins 0) Demo.twins State.init).powerMetric "plug" = some 0 ∧
     (pollCycle (Demo.env Demo.twins 0) Demo.twins State.init).voltageMetric "plug"
       = some 2298 ∧
     (pollCycle (Demo.env Demo.twins 0) Demo.twins State.init).currentMetric "plug"
       = some 2 ∧
     (pollCycle (Demo.env Demo.twins 0) Demo.twins State.init).temperatureMetric "plug"
       = some 301) ∧
    ∀ o, startsWith (Demo.env Demo.twins 0) o Demo.twins →
      ∀ fuel e, run (Demo.env Demo.twins 0) o fuel ≠ some (.error e) :=
  pollCycle_last_success_wins (Demo.env Demo.twins 0) Demo.twins State.init 2 (by decide)
    Demo.sample2 rfl (fun j hj hij _ => by
      have hlen : Demo.twins.length = 4 := rfl
      obtain rfl : j = 3 := by omega
      exact ⟨.unexpectedStatus 500 "http://h4", rfl⟩)

/-! ## The properties of `fetch` -/

/-- C4: for every address and every response whose status code is outside
200-299, `fetch` returns the unexpected-status error carrying that code and no
sample, whatever the decoder would do with the body; and with pairwise distinct
names the gauges of that device are unchanged by the cycle. -/
theorem fetch_rejects_non_2xx (env : Env) (n : Nat) (address : String) (resp : httpResponse)
    (hreq : env.newRequest (address ++ "/rpc/Switch.GetStatus?id=0") = none)
    (hdo : env.doRequest n (address ++ "/rpc/Switch.GetStatus?id=0") = .ok resp)
    (hcode : resp.StatusCode < 200 ∨ 299 < resp.StatusCode) :
    fetch env n address = .error (.unexpectedStatus resp.StatusCode address) ∧
    (∀ dec, fetch { env with decode := dec } n address
      = .error (.unexpectedStatus resp.StatusCode address)) ∧
    ∀ (config : List configItem) (st : State) (i : Nat) (hi : i < config.length),
      (config.map configItem.Name).Nodup → config[i].Address = address →
      st.fetched.length + i = n →
      scrape (pollCycle env config st) config[i].Name = scrape st config[i].Name := by
  have hne : resp.StatusCode ≠ 200 := by omega
  have hfetch : ∀ dec, fetch { env with decode := dec } n address
      = .error (.unexpectedStatus resp.StatusCode address) := by
    intro dec
    simp only [fetch, hreq, hdo]
    rw [if_pos hne]
  refine ⟨hfetch env.decode, hfetch, ?_⟩
  intro config st i hi hnd haddr hn
  rw [scrape_pollCycle]
  apply scrape_foldl_pollItem_of_failed
  intro j item hj hname
  obtain ⟨hlt, hget⟩ := List.getElem?_eq_some.mp hj
  subst hget
  have hji := nodup_names_index config hnd i j hi hlt hname
  subst hji
  exact ⟨_, by rw [hn, haddr]; exact hfetch env.decode⟩

/-- Scenario 3 of the specification: a device answers 500. -/
theorem fetch_rejects_non_2xx_witness :
    fetch (Demo.env Demo.config 0) 3 "http://h2" = .error (.unexpectedStatus 500 "http://h2") ∧
    (∀ dec, fetch { Demo.env Demo.config 0 with decode := dec } 3 "http://h2"
      = .error (.unexpectedStatus 500 "http://h2")) ∧
    ∀ (config : List configItem) (st : State) (i : Nat) (hi : i < config.length),
      (config.map configItem.Name).Nodup → config[i].Address = "http://h2" →
      st.fetched.length + i = 3 →
      scrape (pollCycle (Demo.env Demo.config 0) config st) config[i].Name
        = scrape st config[i].Name :=
  fetch_rejects_non_2xx (Demo.env Demo.config 0) 3 "http://h2" { StatusCode := 500, Body := "" }
    rfl rfl (by decide)

/-- C10: given a transport-level success, `fetch` returns the unexpected-status
error exactly when the status code is not 200 (201, 204 and 206 included, even
with a valid body), and the body is decoded only when the status is 200. -/
theorem fetch_unexpected_status_iff (env : Env) (n : Nat) (address : String)
    (resp : httpResponse)
    (hreq : env.newRequest (address ++ "/rpc/Switch.GetStatus?id=0") = none)
    (hdo : env.doRequest n (address ++ "/rpc/Switch.GetStatus?id=0") = .ok resp) :
    ((∃ code, fetch env n address = .error (.unexpectedStatus code address))
      ↔ resp.StatusCode ≠ 200) ∧
    (resp.StatusCode ≠ 200 → ∀ dec, fetch { env with decode := dec } n address
      = .error (.unexpectedStatus resp.StatusCode address)) ∧
    (resp.StatusCode = 200 → fetch env n address
      = match env.decode resp.Body with
        | .error err => .error (.decodeResponse address err)
        | .ok shellyResp => .ok shellyResp) := by
  have hbad : resp.StatusCode ≠ 200 → ∀ dec, fetch { env with decode := dec } n address
      = .error (.unexpectedStatus resp.StatusCode address) := by
    intro hne dec
    simp only [fetch, hreq, hdo]
    rw [if_pos hne]
  have hgood : resp.StatusCode = 200 → fetch env n address
      = match env.decode resp.Body with
        | .error err => .error (.decodeResponse address err)
        | .ok shellyResp => .ok shellyResp := by
    intro heq
    simp only [fetch, hreq, hdo]
    rw [if_neg (by simp [heq])]
  refine ⟨⟨?_, fun hne => ⟨_, hbad hne env.decode⟩⟩, hbad, hgood⟩
  rintro ⟨code, hcode⟩ heq
  rw [hgood heq] at hcode
  cases hd : env.decode resp.Body <;> simp [hd] at hcode

/-- A 204 with a valid body is rejected. -/
theorem fetch_unexpected_status_iff_witness :
    ((∃ code, fetch Demo.noContent 0 "http://h1" = .error (.unexpectedStatus code "http://h1"))
      ↔ (204 : Int) ≠ 200) ∧
    ((204 : Int) ≠ 200 → ∀ dec, fetch { Demo.noContent with decode := dec } 0 "http://h1"
      = .error (.unexpectedStatus 204 "http://h1")) ∧
    ((204 : Int) = 200 → fetch Demo.noContent 0 "http://h1"
      = match Demo.noContent.decode "payload1" with
        | .error err => .error (.decodeResponse "http://h1" err)
        | .ok shellyResp => .ok shellyResp) :=
  fetch_unexpected_status_iff Demo.noContent 0 "http://h1"
    { StatusCode := 204, Body := "payload1" } rfl rfl

/-! ## The properties over several cycles -/

/-- C8: starting from the empty registry, after any number of poll cycles a name
has stored gauge values if and only if some configured device with that name
had a successful fetch in one of these cycles (otherwise all four gauges are
unset); and an entry that exists is not removed by a later cycle. -/
theorem entry_iff_some_success (env : Env) (config : List configItem) (m : Nat)
    (n : String) :
    ((scrape (runCycles env config m State.init) n).isSet = true ↔
      ∃ c i item resp, c < m ∧ config[i]? = some item ∧ item.Name = n ∧
        fetch env (c * config.length + i) item.Address = .ok resp) ∧
    ((¬ ∃ c i item resp, c < m ∧ config[i]? = some item ∧ item.Name = n ∧
        fetch env (c * config.length + i) item.Address = .ok resp) →
      scrape (runCycles env config m State.init) n = Sample.unset) ∧
    ∀ st : State, (scrape st n).isSet = true →
      (scrape (pollCycle env config st) n).isSet = true := by
  have hiff : succeededWithin env config State.init m n ↔
      ∃ c i item resp, c < m ∧ config[i]? = some item ∧ item.Name = n ∧
        fetch env (c * config.length + i) item.Address = .ok resp := by
    simp [succeededWithin, State.init]
  have hunset : ¬ succeededWithin env config State.init m n →
      scrape (runCycles env config m State.init) n = Sample.unset := by
    intro h
    rw [scrape_runCycles_of_not_succeeded env config m State.init n h]
    rfl
  refine ⟨?_, fun h => hunset (fun hs => h (hiff.mp hs)), ?_⟩
  · rw [← hiff]
    constructor
    · intro hset
      by_contra hno
      rw [hunset hno] at hset
      exact absurd hset (by decide)
    · exact isSet_runCycles_of_succeeded env config m State.init n
  · intro st hset
    rw [scrape_pollCycle]
    exact isSet_foldl_pollItem env config st n hset

/-- C9: in every poll cycle the addresses passed to `fetch` are exactly the
configured addresses in configuration order, one per device, whatever the
outcomes of the fetches of this cycle and of the cycles before. -/
theorem fetch_order_is_configuration_order (env : Env) (config : List configItem)
    (st : State) (m : Nat) :
    (pollCycle env config st).fetched = st.fetched ++ config.map configItem.Address ∧
    (runCycles env config (m + 1) st).fetched
      = (runCycles env config m st).fetched ++ config.map configItem.Address ∧
    (runCycles env config m State.init).fetched
      = (List.replicate m (config.map configItem.Address)).flatten := by
  refine ⟨pollCycle_fetched env config st, ?_, ?_⟩
  · rw [runCycles_succ, pollCycle_fetched]
  · induction m with
    | zero => rfl
    | succ m ih =>
      rw [runCycles_succ, pollCycle_fetched, ih]
      have hsplit : List.replicate (m + 1) (config.map configItem.Address)
          = List.replicate m (config.map configItem.Address)
            ++ [config.map configItem.Address] := by
        rw [← List.replicate_one, List.append_replicate_replicate]
      rw [hsplit, List.flatten_append]
      simp

/-- C6: the polling loop runs a poll cycle before its first wait and returns only
at a wait won by the stop signal: when the timer wins the first `k - 1` waits
and the stop signal the `k`-th, `run` executes exactly `k` poll cycles and
returns nil, whatever the outcomes of the fetches. -/
theorem run_stops_at_first_stop_signal (env : Env) (o : opts) (config : List configItem)
    (k : Nat) (hk : 1 ≤ k) (hstart : startsWith env o config)
    (htimer : ∀ j, j < k - 1 → ctxDone env j = false)
    (hstop : ctxDone env (k - 1) = true) :
    (∀ fuel, k ≤ fuel → run env o fuel = some (.ok (runCycles env config k State.init))) ∧
    (runCycles env config k State.init).cycles = k ∧
    (∀ fuel, fuel < k → run env o fuel = none) ∧
    ∀ fuel st, run env o fuel = some (.ok st) →
      1 ≤ st.cycles ∧ ctxDone env (st.cycles - 1) = true := by
  obtain ⟨k, rfl⟩ : ∃ k0, k = k0 + 1 := ⟨k - 1, by omega⟩
  have hc0 : State.init.cycles = 0 := rfl
  refine ⟨?_, ?_, ?_, ?_⟩
  · intro fuel hfuel
    rw [run_of_startsWith env o config hstart,
      loop_of_first_done env config k fuel State.init (by omega)
        (by intro j hj; rw [hc0, Nat.zero_add]; exact htimer j (by omega))
        (by rw [hc0, Nat.zero_add]; simpa using hstop)]
    rfl
  · rw [runCycles_cycles, hc0, Nat.zero_add]
  · intro fuel hfuel
    rw [run_of_startsWith env o config hstart,
      loop_of_not_done env config fuel State.init
        (by intro j hj; rw [hc0, Nat.zero_add]; exact htimer j (by omega))]
    rfl
  · intro fuel st hrun
    rw [run_of_startsWith env o config hstart] at hrun
    cases hl : loop env config fuel State.init with
    | none => rw [hl] at hrun; simp at hrun
    | some res =>
      rw [hl] at hrun
      have hres : res = st := by simpa using hrun
      subst hres
      obtain ⟨j, _, hj, hdone, _⟩ := loop_some env config fuel State.init res hl
      rw [hc0, Nat.zero_add] at hdone
      have hcyc : res.cycles = j + 1 := by
        rw [hj, runCycles_cycles, hc0, Nat.zero_add]
      rw [hcyc]
      exact ⟨by omega, by simpa using hdone⟩

/-- The timer wins the first wait, the stop signal the second: two poll cycles,
each with a failed fetch. -/
theorem run_stops_at_first_stop_signal_witness :
    (∀ fuel, 2 ≤ fuel → run (Demo.env Demo.config 1) Demo.o fuel
      = some (.ok (runCycles (Demo.env Demo.config 1) Demo.config 2 State.init))) ∧
    (runCycles (Demo.env Demo.config 1) Demo.config 2 State.init).cycles = 2 ∧
    (∀ fuel, fuel < 2 → run (Demo.env Demo.config 1) Demo.o fuel = none) ∧
    ∀ fuel st, run (Demo.env Demo.config 1) Demo.o fuel = some (.ok st) →
      1 ≤ st.cycles ∧ ctxDone (Demo.env Demo.config 1) (st.cycles - 1) = true :=
  run_stops_at_first_stop_signal (Demo.env Demo.config 1) Demo.o Demo.config 2 (by decide)
    (Demo.startsWith_env Demo.config 1)
    (fun j hj => by
      obtain rfl : j = 0 := by omega
      rfl)
    rfl

/-! ## A failing listener -/

/-- C5, as stated, fails: the listener cannot bind, `cancel()` lands during the
first wait, and `run` returns nil after one poll cycle, so `main` exits with
status zero. -/
theorem bind_failure_run_returns_nil :
    (Demo.env Demo.config 0).listenAndServe
      = some (0, "listen tcp :9090: bind: address already in use") ∧
    run (Demo.env Demo.config 0) Demo.o 1
      = some (.ok (pollCycle (Demo.env Demo.config 0) Demo.config State.init)) ∧
    (∀ fuel e, run (Demo.env Demo.config 0) Demo.o fuel ≠ some (.error e)) ∧
    main (Demo.env Demo.config 0) 1 = some 0 :=
  ⟨rfl, rfl, run_ne_error _ _ _ (Demo.startsWith_env Demo.config 0), by decide⟩

/-- C5, amended: when `ListenAndServe` returns an error, `run` returns no error:
it finishes at least one poll cycle, returns nil at the first wait won by the
stop signal, and `main` exits with status zero. -/
theorem listen_failure_run_returns_nil (env : Env) (o : opts) (config : List configItem)
    (hstart : startsWith env o config) (t : Nat) (err : String)
    (hserve : env.listenAndServe = some (t, err)) :
    (∀ fuel e, run env o fuel ≠ some (.error e)) ∧
    (∀ fuel, t < fuel → ∃ st, run env o fuel = some (.ok st) ∧
      1 ≤ st.cycles ∧ st.cycles ≤ t + 1) ∧
    (env.parseFlags = .ok o → ∀ fuel, t < fuel → main env fuel = some 0) := by
  have hdone : ctxDone env (State.init.cycles + t) = true := by
    simp [ctxDone, hserve, State.init]
  have hret : ∀ fuel, t < fuel → ∃ st, run env o fuel = some (.ok st) ∧
      1 ≤ st.cycles ∧ st.cycles ≤ t + 1 := by
    intro fuel hfuel
    obtain ⟨res, hres, hlo, hhi⟩ := loop_returns env config fuel State.init t hfuel hdone
    have hc0 : State.init.cycles = 0 := rfl
    refine ⟨res, ?_, by omega, by omega⟩
    rw [run_of_startsWith env o config hstart, hres]
    rfl
  refine ⟨run_ne_error env o config hstart, hret, ?_⟩
  intro hflags fuel hfuel
  obtain ⟨st, hst, _⟩ := hret fuel hfuel
  simp only [main, hflags, hst]

/-- The listener fails and `cancel()` lands during the second wait. -/
theorem listen_failure_run_returns_nil_witness :
    (∀ fuel e, run (Demo.env Demo.config 1) Demo.o fuel ≠ some (.error e)) ∧
    (∀ fuel, 1 < fuel → ∃ st, run (Demo.env Demo.config 1) Demo.o fuel = some (.ok st) ∧
      1 ≤ st.cycles ∧ st.cycles ≤ 1 + 1) ∧
    ((Demo.env Demo.config 1).parseFlags = .ok Demo.o →
      ∀ fuel, 1 < fuel → main (Demo.env Demo.config 1) fuel = some 0) :=
  listen_failure_run_returns_nil (Demo.env Demo.config 1) Demo.o Demo.config
    (Demo.startsWith_env Demo.config 1) 1 "listen tcp :9090: bind: address already in use" rfl

/-! ## A scrape during an update -/

theorem powerMetric_take_writeSteps (st : State) (name : String) (resp : shellyResponse)
    (j : Nat) :
    (applySteps ((writeSteps name resp).take j) st).powerMetric name
      = if 2 ≤ j then some resp.Power
        else if 1 ≤ j then some ((st.powerMetric name).getD 0) else st.powerMetric name := by
  rcases j with _ | _ | _ | _ | _ | _ | _ | _ | j <;>
    simp [applySteps, writeSteps, GaugeVec.Set, GaugeVec.WithLabelValues]

theorem voltageMetric_take_writeSteps (st : State) (name : String) (resp : shellyResponse)
    (j : Nat) :
    (applySteps ((writeSteps name resp).take j) st).voltageMetric name
      = if 4 ≤ j then some resp.Voltage
        else if 3 ≤ j then some ((st.voltageMetric name).getD 0)
        else st.voltageMetric name := by
  rcases j with _ | _ | _ | _ | _ | _ | _ | _ | j <;>
    simp [applySteps, writeSteps, GaugeVec.Set, GaugeVec.WithLabelValues]

theorem currentMetric_take_writeSteps (st : State) (name : String) (resp : shellyResponse)
    (j : Nat) :
    (applySteps ((writeSteps name resp).take j) st).currentMetric name
      = if 6 ≤ j then some resp.Current
        else if 5 ≤ j then some ((st.currentMetric name).getD 0)
        else st.currentMetric name := by
  rcases j with _ | _ | _ | _ | _ | _ | _ | _ | j <;>
    simp [applySteps, writeSteps, GaugeVec.Set, GaugeVec.WithLabelValues]

theorem temperatureMetric_take_writeSteps (st : State) (name : String)
    (resp : shellyResponse) (j : Nat) :
    (applySteps ((writeSteps name resp).take j) st).temperatureMetric name
      = if 8 ≤ j then some resp.Temperature.Celsius
        else if 7 ≤ j then some ((st.temperatureMetric name).getD 0)
        else st.temperatureMetric name := by
  rcases j with _ | _ | _ | _ | _ | _ | _ | _ | j <;>
    simp [applySteps, writeSteps, GaugeVec.Set, GaugeVec.WithLabelValues]

/-- C3, as stated, fails: a scrape that runs right after the power gauge of
"dev1" was set reads the new power next to the previous voltage, current and
temperature, which is neither the previous sample nor the new one. -/
theorem scrape_reads_mixed_sample :
    scrapeDuring Demo.before "dev1" Demo.sample1 2 2 2 2 "dev1"
      = { power := some 125, voltage := some 1, current := some 1, temperature := some 1 } ∧
    scrape Demo.before "dev1"
      = { power := some 1, voltage := some 1, current := some 1, temperature := some 1 } ∧
    scrape (applySteps (writeSteps "dev1" Demo.sample1) Demo.before) "dev1"
      = { power := some 125, voltage := some 2301, current := some 54,
          temperature := some 320 } ∧
    scrapeDuring Demo.before "dev1" Demo.sample1 2 2 2 2 "dev1" ≠ scrape Demo.before "dev1" ∧
    scrapeDuring Demo.before "dev1" Demo.sample1 2 2 2 2 "dev1"
      ≠ scrape (applySteps (writeSteps "dev1" Demo.sample1) Demo.before) "dev1" := by
  decide

/-- C3, amended: a scrape that runs during an update for a name reads each of
the four gauges on its own: a field reads as the new value once its `Set` has
run, as zero when `WithLabelValues` has just created its gauge, and as the
previous value otherwise; the four reads need not agree. -/
theorem scrape_during_update_reads_each_gauge (st : State) (name : String)
    (resp : shellyResponse) (jp jv jc jt : Nat) :
    scrapeDuring st name resp jp jv jc jt name =
      { power := if 2 ≤ jp then some resp.Power
          else if 1 ≤ jp then some ((st.powerMetric name).getD 0) else st.powerMetric name
        voltage := if 4 ≤ jv then some resp.Voltage
          else if 3 ≤ jv then some ((st.voltageMetric name).getD 0)
          else st.voltageMetric name
        current := if 6 ≤ jc then some resp.Current
          else if 5 ≤ jc then some ((st.currentMetric name).getD 0)
          else st.currentMetric name
        temperature := if 8 ≤ jt then some resp.Temperature.Celsius
          else if 7 ≤ jt then some ((st.temperatureMetric name).getD 0)
          else st.temperatureMetric name } := by
  unfold scrapeDuring
  rw [powerMetric_take_writeSteps, voltageMetric_take_writeSteps,
    currentMetric_take_writeSteps, temperatureMetric_take_writeSteps]

end ShellyExporter
